import Mathlib

/-!
Verification of the Steam duplicate finder service.

The definitions below are a shallow embedding of the service code:
the per-entry matching algorithm (`matchGame`), the duplicate set
computation (`identifyDuplicateGames`), the tag write-back
(`tagGamesAsDuplicate`), the Steam app id extractor
(`extractSteamAppId`), the title matcher of the wishlist-aware variant
(`matchByTitle`), and the configuration handling (`parseNumber`,
`getCensoredConfiguration`, `validateSteamConfig`).  String-valued
JavaScript library calls (`stringSimilarity` from string-similarity-js
and `kebabCase` from lodash) are embedded directly, restricted to
ASCII text.  JavaScript numbers are modelled by rationals and absent
values by `Option`.
-/

namespace SteamDupeFinder

/-- Model of JavaScript `toLowerCase` on ASCII text: lowercase every
character. -/
def jsToLower (s : String) : String :=
  String.mk (s.data.map Char.toLower)

/-- The list of two-character substrings of a string, in order, as built
by the substring loop of `stringSimilarity` in string-similarity-js with
the default substring length 2. -/
def bigrams : List Char → List String
  | a :: b :: rest => String.mk [a, b] :: bigrams (b :: rest)
  | _ => []

/-- Remove the first occurrence of a value from a list; this models one
decrement of the occurrence-count map used by `stringSimilarity`. -/
def removeFirst : List String → String → List String
  | [], _ => []
  | x :: xs, b => if x = b then xs else x :: removeFirst xs b

/-- The matching loop of `stringSimilarity`: walk the second list of
bigrams and greedily consume matching occurrences from the pool of
bigrams of the first string, counting the matches. -/
def greedyMatchCount : List String → List String → Nat
  | _, [] => 0
  | pool, b :: rest =>
    if b ∈ pool then greedyMatchCount (removeFirst pool b) rest + 1
    else greedyMatchCount pool rest

/-- Embedding of `stringSimilarity` from the string-similarity-js
package, the similarity metric the service calls, at its default
arguments (substring length 2, case-insensitive): both inputs are
lowercased, strings shorter than 2 characters score 0, and otherwise the
score is the Sorensen-Dice coefficient
`2 * matches / (len1 + len2 - 2)` over the multisets of character
bigrams.  Scores are modelled as rationals. -/
def stringSimilarity (str1 str2 : String) : ℚ :=
  let s1 := jsToLower str1
  let s2 := jsToLower str2
  if s1.length < 2 ∨ s2.length < 2 then 0
  else
    (2 * (greedyMatchCount (bigrams s1.data) (bigrams s2.data) : ℚ)) /
      ((s1.length : ℚ) + (s2.length : ℚ) - 2)

/-- ASCII lowercase letter test. -/
def isAsciiLower (c : Char) : Bool :=
  97 ≤ c.toNat && c.toNat ≤ 122

/-- ASCII uppercase letter test. -/
def isAsciiUpper (c : Char) : Bool :=
  65 ≤ c.toNat && c.toNat ≤ 90

/-- ASCII digit test. -/
def isAsciiDigit (c : Char) : Bool :=
  48 ≤ c.toNat && c.toNat ≤ 57

/-- lodash removes straight and curly apostrophes before splitting a
string into words. -/
def stripApostrophes (l : List Char) : List Char :=
  l.filter (fun c => !(c.toNat == 39) && !(c.toNat == 0x2019))

/-- ASCII alphanumeric test. -/
def isAsciiAlnum (c : Char) : Bool :=
  isAsciiLower c || isAsciiUpper c || isAsciiDigit c

/-- Word boundary between two adjacent alphanumeric characters, with one
character of lookahead: a digit next to a letter, a lowercase letter
followed by an uppercase one, and an uppercase pair whose successor is
lowercase (so a run of several uppercase letters followed by a lowercase
letter contributes its last uppercase letter to the following word). -/
def wordBoundary (p c : Char) (next : Option Char) : Bool :=
  (isAsciiDigit p != isAsciiDigit c) ||
  (isAsciiLower p && isAsciiUpper c) ||
  (isAsciiUpper p && isAsciiUpper c &&
    (match next with
     | some n => isAsciiLower n
     | none => false))

/-- The word splitter of lodash `kebabCase`, modelled for ASCII text:
walk the characters keeping the current word (reversed) as accumulator;
a non-alphanumeric character ends the word, and a boundary between
adjacent alphanumeric characters starts a new one. -/
def splitWordsAux : List Char → List Char → List (List Char)
  | acc, [] => if acc.isEmpty then [] else [acc.reverse]
  | acc, c :: cs =>
    if !(isAsciiAlnum c) then
      (if acc.isEmpty then [] else [acc.reverse]) ++ splitWordsAux [] cs
    else
      match acc with
      | [] => splitWordsAux [c] cs
      | p :: _ =>
        if wordBoundary p c cs.head? then acc.reverse :: splitWordsAux [c] cs
        else splitWordsAux (c :: acc) cs

/-- Split a character list into the words of lodash `kebabCase`. -/
def splitWords (l : List Char) : List (List Char) :=
  splitWordsAux [] l

/-- Embedding of lodash `kebabCase`, the title normalisation the service
applies before scoring, restricted to ASCII text (no deburring, no
ordinal-suffix handling): apostrophes are removed, the string is split
into camel-case and digit aware words, and the lowercased words are
joined with a hyphen. -/
def kebabCase (s : String) : String :=
  String.intercalate "-"
    ((splitWords (stripApostrophes s.data)).map
      (fun w => String.mk (w.map Char.toLower)))

/-- A tag attached to a Gamevault game; only its name matters here. -/
structure Tag where
  name : String
deriving DecidableEq

/-- The `user_metadata` of a Gamevault game: an optional list of tags. -/
structure UserMetadata where
  tags : Option (List Tag)
deriving DecidableEq

/-- One provider metadata record of a Gamevault game: an optional list
of website URLs. -/
structure ProviderMetadata where
  url_websites : Option (List String)
deriving DecidableEq

/-- A local vault entry, with the fields the service reads. -/
structure GamevaultGame where
  id : Nat
  title : String
  user_metadata : Option UserMetadata
  provider_metadata : Option (List ProviderMetadata)
deriving DecidableEq

/-- A Steam reference entry, with the fields the service reads. -/
structure SteamGame where
  appid : Nat
  name : String
deriving DecidableEq

/-- The sentinel duplicate tag written by the service. -/
def DUPLICATE_TAG : String := "Duplicate: Steam"

/-- The tag list of a game, with both optional layers defaulted to the
empty list, as `game.user_metadata?.tags ?? []` does. -/
def tagList (g : GamevaultGame) : List Tag :=
  (g.user_metadata.bind (fun m => m.tags)).getD []

/-- The tag names of a game. -/
def tagNames (g : GamevaultGame) : List String :=
  (tagList g).map (fun t => t.name)

/-- Whether a game already carries the sentinel duplicate tag, as
checked by `user_metadata?.tags?.some(tag => tag.name === DUPLICATE_TAG)`
(a missing optional layer makes the check false). -/
def hasDuplicateTag (g : GamevaultGame) : Bool :=
  (tagList g).any (fun t => t.name == DUPLICATE_TAG)

/-- The literal part of the app id regular expression
`store\.steampowered\.com\/app\/(\d+)`. -/
def steamAppUrlPattern : List Char := "store.steampowered.com/app/".data

/-- Attempt of the app id pattern at one position: the literal prefix
must match and at least one digit must follow; the captured group is the
maximal digit run. -/
def matchSteamAppIdAt (cs : List Char) : Option String :=
  if steamAppUrlPattern.isPrefixOf cs then
    let digits := (cs.drop steamAppUrlPattern.length).takeWhile isAsciiDigit
    if digits.isEmpty then none else some (String.mk digits)
  else none

/-- Unanchored regular expression search: try the pattern at every
position, left to right, and return the first capture. -/
def searchSteamAppId : List Char → Option String
  | [] => none
  | c :: cs =>
    match matchSteamAppIdAt (c :: cs) with
    | some r => some r
    | none => searchSteamAppId cs

/-- `url.match(/store\.steampowered\.com\/app\/(\d+)/)?.[1]` applied to
one reference URL: the first capture if the pattern occurs, else none. -/
def extractAppIdFromUrl (url : String) : Option String :=
  searchSteamAppId url.data

/-- First defined element of a list of optional strings, modelling
`.find(Boolean) ?? null` (the captures are nonempty digit strings, so
truthiness coincides with definedness). -/
def firstSome : List (Option String) → Option String
  | [] => none
  | o :: rest =>
    match o with
    | some s => some s
    | none => firstSome rest

/-- `extractSteamAppId` of the service: flatten the website URL lists of
all provider metadata records in order, apply the pattern to each URL,
and return the first capture; a record without URLs contributes nothing
and a missing `provider_metadata` yields none. -/
def extractSteamAppId (g : GamevaultGame) : Option String :=
  match g.provider_metadata with
  | none => none
  | some pms =>
    firstSome (pms.flatMap (fun m => (m.url_websites.getD []).map extractAppIdFromUrl))

/-- `steamGameMap.has(sid)`: the map is keyed by `appid.toString()`. -/
def steamGameMapHas (steamGames : List SteamGame) (sid : String) : Bool :=
  steamGames.any (fun s => toString s.appid == sid)

/-- The verdict of the per-entry matching: the exact branch taken when
the extracted id is a key of the Steam map, or the fuzzy branch taken
for the first Steam game passing the similarity test. -/
inductive MatchResult where
  | exact (steamId : String)
  | fuzzy (steamGame : SteamGame)
deriving DecidableEq

/-- The fuzzy matching loop of `identifyDuplicateGames`: scan the Steam
games in order and stop at the first whose kebab-cased name scores
strictly above 9/10 against the kebab-cased title.  The similarity
scorer is a parameter; the service instantiates it with
`stringSimilarity`. -/
def firstTitleMatch (sim : String → String → ℚ) (title : String) :
    List SteamGame → Option SteamGame
  | [] => none
  | s :: rest =>
    if (9 : ℚ) / 10 < sim (kebabCase title) (kebabCase s.name) then some s
    else firstTitleMatch sim title rest

/-- The per-entry body of `identifyDuplicateGames`: skip games already
carrying the sentinel tag; otherwise take the exact branch when the
extracted Steam id is truthy and a key of the Steam map, and fall back
to the fuzzy title scan otherwise. -/
def matchGame (sim : String → String → ℚ) (steamGames : List SteamGame)
    (g : GamevaultGame) : Option MatchResult :=
  if hasDuplicateTag g then none
  else
    match extractSteamAppId g with
    | some sid =>
      if (sid != "") && steamGameMapHas steamGames sid then some (MatchResult.exact sid)
      else (firstTitleMatch sim g.title steamGames).map MatchResult.fuzzy
    | none => (firstTitleMatch sim g.title steamGames).map MatchResult.fuzzy

/-- `identifyDuplicateGames`: the set of vault games with a match, in
iteration order. -/
def identifyDuplicateGames (sim : String → String → ℚ)
    (gamevaultGames : List GamevaultGame) (steamGames : List SteamGame) :
    List GamevaultGame :=
  gamevaultGames.filter (fun g => (matchGame sim steamGames g).isSome)

/-- The `user_metadata` payload of one write request: a plain list of
tag names. -/
structure UpdateMetadata where
  tags : List String
deriving DecidableEq

/-- One write request submitted to the games service. -/
structure GameUpdate where
  id : Nat
  user_metadata : UpdateMetadata
deriving DecidableEq

/-- The write request built for one game: its existing tag names with
the sentinel tag appended. -/
def mkUpdate (g : GamevaultGame) : GameUpdate :=
  ⟨g.id, ⟨tagNames g ++ [DUPLICATE_TAG]⟩⟩

/-- `tagGamesAsDuplicate`: keep the duplicates whose tag set does not
already contain the sentinel tag and build one write request for each. -/
def tagGamesAsDuplicate (duplicates : List GamevaultGame) : List GameUpdate :=
  (duplicates.filter (fun g => !(hasDuplicateTag g))).map mkUpdate

/-- The write requests of one full matching-plus-reconciliation pass. -/
def tagUpdates (sim : String → String → ℚ) (gamevaultGames : List GamevaultGame)
    (steamGames : List SteamGame) : List GameUpdate :=
  tagGamesAsDuplicate (identifyDuplicateGames sim gamevaultGames steamGames)

/-- The local entry as it reads back after its write request was
applied: `user_metadata.tags` holds the previous tag names plus the
sentinel tag. -/
def applyUpdateTo (g : GamevaultGame) : GamevaultGame :=
  { g with user_metadata := some ⟨some ((tagNames g ++ [DUPLICATE_TAG]).map Tag.mk)⟩ }

/-- The local snapshot after one run: every entry that received a write
request (matched and not yet tagged) carries the appended sentinel tag,
every other entry is unchanged.  Snapshot ids are assumed unique, so the
store applies each request to its own entry. -/
def applyRun (sim : String → String → ℚ) (gamevaultGames : List GamevaultGame)
    (steamGames : List SteamGame) : List GamevaultGame :=
  gamevaultGames.map (fun g =>
    if (matchGame sim steamGames g).isSome && !(hasDuplicateTag g) then applyUpdateTo g
    else g)

/-- A reference item of the wishlist-aware variant: a Steam library game
(with a name) or a wishlist item (appid only, no name field). -/
inductive SteamItem where
  | game (g : SteamGame)
  | wishlist (appid : Nat)
deriving DecidableEq

/-- The name of an item when it has one, modelling the
`"name" in steamItem` check. -/
def itemName : SteamItem → Option String
  | SteamItem.game g => some g.name
  | SteamItem.wishlist _ => none

/-- JavaScript truthiness of an optional string: false for a missing
value and for the empty string. -/
def truthyOptStr : Option String → Bool
  | none => false
  | some s => s != ""

/-- The guard of the `matchByTitle` loop body: the item must carry a
name, the vault title must be truthy, and only then is the similarity of
the kebab-cased strings compared against the threshold. -/
def matchByTitleCond (sim : String → String → ℚ) (title : Option String)
    (item : SteamItem) : Bool :=
  match itemName item, title with
  | some n, some t =>
    (t != "") && decide ((9 : ℚ) / 10 < sim (kebabCase t) (kebabCase n))
  | _, _ => false

/-- `matchByTitle` of the wishlist-aware variant: scan the items in
order and stop at the first satisfying the guard. -/
def matchByTitle (sim : String → String → ℚ) (title : Option String) :
    List SteamItem → Option SteamItem
  | [] => none
  | i :: rest =>
    if matchByTitleCond sim title i then some i
    else matchByTitle sim title rest

/-- `Number.MAX_SAFE_INTEGER`. -/
def maxSafeInteger : ℚ := 9007199254740991

/-- `parseNumber` from configuration.ts.  The JavaScript `Number(env)`
coercion is modelled by the argument: `none` stands for NaN (the result
of coercing a non-numeric or absent environment string), `some q` for a
finite numeric value.  NaN, negative values and values above
`MAX_SAFE_INTEGER` fall back to the default. -/
def parseNumber (numberVal : Option ℚ) (defaultValue : Option ℚ) : Option ℚ :=
  match numberVal with
  | none => defaultValue
  | some q => if q < 0 ∨ q > maxSafeInteger then defaultValue else some q

/-- The configuration object. -/
structure Config where
  STEAM_USER_ID : Option String
  STEAM_API_KEY : Option String
  INTERVAL : Option ℚ
deriving DecidableEq

/-- Construction of the configuration object from the environment:
`INTERVAL` is the parsed interval with documented default 24 * 60. -/
def mkConfiguration (userId apiKey : Option String) (intervalEnv : Option ℚ) : Config :=
  ⟨userId, apiKey, parseNumber intervalEnv (some (24 * 60))⟩

/-- The `disabled` flag of the cron schedule:
`configuration.INTERVAL <= 0`, false when `INTERVAL` is undefined (a NaN
comparison is false). -/
def cronDisabled (c : Config) : Bool :=
  match c.INTERVAL with
  | none => false
  | some q => decide (q ≤ 0)

/-- The censored configuration view; the JSON round trip collapses
undefined into null, both modelled by `none`. -/
structure CensoredConfig where
  STEAM_USER_ID : Option String
  STEAM_API_KEY : Option String
  INTERVAL : Option ℚ
deriving DecidableEq

/-- `getCensoredConfiguration`: copy the configuration and replace a
truthy API key by the literal string and a falsy one by null. -/
def getCensoredConfiguration (c : Config) : CensoredConfig :=
  { STEAM_USER_ID := c.STEAM_USER_ID
    STEAM_API_KEY := if truthyOptStr c.STEAM_API_KEY then some "**REDACTED**" else none
    INTERVAL := c.INTERVAL }

/-- `validateSteamConfig`: reject a falsy API key, then a falsy user id,
before any fetch. -/
def validateSteamConfig (c : Config) : Except String Unit :=
  if !(truthyOptStr c.STEAM_API_KEY) then Except.error "Steam API key not configured."
  else if !(truthyOptStr c.STEAM_USER_ID) then Except.error "Steam User ID not configured."
  else Except.ok ()

/-- The transport outcome of the Steam API request. -/
structure SteamResponse where
  ok : Bool
  status : Nat
  games : List SteamGame
deriving DecidableEq

/-- `fetchSteamGames`: validate the configuration first, then reject a
non-success transport response, else return the fetched games. -/
def fetchSteamGames (c : Config) (resp : SteamResponse) :
    Except String (List SteamGame) :=
  match validateSteamConfig c with
  | Except.error e => Except.error e
  | Except.ok _ =>
    if !resp.ok then Except.error "Steam API fetch failed" else Except.ok resp.games

/-- The `findDuplicates` orchestration: if either snapshot acquisition
fails the catch handler runs and no write request is issued; otherwise
matching and tagging run on the two snapshots. -/
def findDuplicatesRun (sim : String → String → ℚ) (c : Config)
    (resp : SteamResponse) (store : Except String (List GamevaultGame)) :
    List GameUpdate :=
  match fetchSteamGames c resp, store with
  | Except.ok sgs, Except.ok gvs => tagUpdates sim gvs sgs
  | _, _ => []

/-! Lemmas about the similarity metric. -/

theorem removeFirst_coe (b : String) (l : List String) :
    (↑(removeFirst l b) : Multiset String) = (↑l : Multiset String).erase b := by
  induction l with
  | nil => simp [removeFirst, Multiset.erase_zero]
  | cons x xs ih =>
    by_cases hx : x = b
    · subst hx
      show (↑(if x = x then xs else x :: removeFirst xs x) : Multiset String) = _
      rw [if_pos rfl]
      rw [show ((↑(x :: xs) : Multiset String)) = x ::ₘ (↑xs : Multiset String) by
            simp [Multiset.cons_coe], Multiset.erase_cons_head]
    · simp only [removeFirst, if_neg hx, ← Multiset.cons_coe,
        Multiset.erase_cons_tail _ hx, ih]

theorem greedyMatchCount_eq (l2 : List String) : ∀ pool : List String,
    greedyMatchCount pool l2 =
      Multiset.card ((↑l2 : Multiset String) ∩ (↑pool : Multiset String)) := by
  induction l2 with
  | nil => intro pool; simp [greedyMatchCount, Multiset.zero_inter]
  | cons b rest ih =>
    intro pool
    by_cases hb : b ∈ pool
    · rw [show greedyMatchCount pool (b :: rest) =
          greedyMatchCount (removeFirst pool b) rest + 1 by
            simp [greedyMatchCount, hb], ih]
      rw [show ((↑(b :: rest) : Multiset String)) = b ::ₘ (↑rest : Multiset String) by
            simp [Multiset.cons_coe]]
      rw [Multiset.cons_inter_of_pos _ (Multiset.mem_coe.mpr hb), Multiset.card_cons,
        removeFirst_coe]
    · rw [show greedyMatchCount pool (b :: rest) = greedyMatchCount pool rest by
            simp [greedyMatchCount, hb], ih]
      rw [show ((↑(b :: rest) : Multiset String)) = b ::ₘ (↑rest : Multiset String) by
            simp [Multiset.cons_coe]]
      rw [Multiset.cons_inter_of_neg _ (fun hc => hb (Multiset.mem_coe.mp hc))]

theorem greedyMatchCount_comm (a b : List String) :
    greedyMatchCount a b = greedyMatchCount b a := by
  rw [greedyMatchCount_eq, greedyMatchCount_eq, Multiset.inter_comm]

theorem multiset_inter_self (s : Multiset String) : s ∩ s = s :=
  le_antisymm (Multiset.inter_le_left s s) (Multiset.le_inter le_rfl le_rfl)

theorem greedyMatchCount_self (l : List String) : greedyMatchCount l l = l.length := by
  rw [greedyMatchCount_eq, multiset_inter_self, Multiset.coe_card]

theorem bigrams_length : ∀ l : List Char, (bigrams l).length = l.length - 1
  | [] => rfl
  | [_] => rfl
  | _ :: b :: rest => by
    simp only [bigrams, List.length_cons]
    rw [bigrams_length (b :: rest)]
    simp

/-- Evaluation helper: the score of two sufficiently long strings is the
Dice ratio of their match count. -/
theorem stringSimilarity_eval (a b : String) (m la lb : Nat)
    (hla : (jsToLower a).length = la) (hlb : (jsToLower b).length = lb)
    (h2a : 2 ≤ la) (h2b : 2 ≤ lb)
    (hm : greedyMatchCount (bigrams (jsToLower a).data) (bigrams (jsToLower b).data) = m) :
    stringSimilarity a b = (2 * (m : ℚ)) / ((la : ℚ) + (lb : ℚ) - 2) := by
  simp only [stringSimilarity, hla, hlb, hm]
  rw [if_neg (by omega)]

theorem jsToLower_length (s : String) : (jsToLower s).length = s.length := by
  show (s.data.map Char.toLower).length = s.data.length
  exact List.length_map s.data Char.toLower

theorem jsToLower_data_length (s : String) : (jsToLower s).data.length = s.length := by
  show (s.data.map Char.toLower).length = s.data.length
  exact List.length_map s.data Char.toLower

/-- C8 (counterexample): the similarity metric does NOT return 1 for
every pair of identical normalized strings: the one-character string
"a" compared with itself scores 0, because the metric returns 0 whenever
an input is shorter than the substring length 2.  Such inputs arise from
one-letter titles ("A" normalizes to "a"). -/
theorem c8_counterexample :
    stringSimilarity "a" "a" ≠ 1 ∧ stringSimilarity "a" "a" = 0 := by
  constructor
  · decide
  · decide

/-- C8 (amended): the similarity metric is symmetric on every pair of
strings, and returns 1 for identical inputs of length at least 2 (the
substring length of the bigram decomposition); identical inputs shorter
than 2 characters score 0 instead. -/
theorem c8_similarity_symmetric (a b s : String) (h : 2 ≤ s.length) :
    stringSimilarity a b = stringSimilarity b a ∧ stringSimilarity s s = 1 := by
  constructor
  · by_cases h1 : (jsToLower a).length < 2 <;> by_cases h2 : (jsToLower b).length < 2
    · simp [stringSimilarity, h1, h2]
    · simp [stringSimilarity, h1, h2]
    · simp [stringSimilarity, h1, h2]
    · simp only [stringSimilarity]
      rw [if_neg (by omega), if_neg (by omega)]
      rw [greedyMatchCount_comm (bigrams (jsToLower a).data) (bigrams (jsToLower b).data)]
      ring_nf
  · have hlen : ¬ ((jsToLower s).length < 2 ∨ (jsToLower s).length < 2) := by
      rw [jsToLower_length]; omega
    simp only [stringSimilarity]
    rw [if_neg hlen, greedyMatchCount_self, bigrams_length, jsToLower_data_length,
      jsToLower_length, Nat.cast_sub (by omega : 1 ≤ s.length)]
    have h2q : (2 : ℚ) ≤ (s.length : ℚ) := by exact_mod_cast h
    have hne : ((s.length : ℚ) + (s.length : ℚ) - 2) ≠ 0 := by
      intro h0; linarith
    rw [div_eq_one_iff_eq hne]
    ring

/-- Witness for C8 (amended): concrete symmetry and a concrete identical
pair of length 2 scoring 1. -/
theorem c8_similarity_symmetric_witness :
    2 ≤ ("ab" : String).length ∧
      (stringSimilarity "Foo" "Bar" = stringSimilarity "Bar" "Foo" ∧
        stringSimilarity "ab" "ab" = 1) :=
  ⟨by decide, c8_similarity_symmetric "Foo" "Bar" "ab" (by decide)⟩

/-! Lemmas about the app id extractor. -/

theorem matchSteamAppIdAt_ne_empty {cs : List Char} {r : String}
    (h : matchSteamAppIdAt cs = some r) : r ≠ "" := by
  simp only [matchSteamAppIdAt] at h
  split at h
  · split at h
    · exact absurd h (by simp)
    · rename_i hne
      have hr := Option.some.inj h
      intro h0
      subst h0
      have hnil : (cs.drop steamAppUrlPattern.length).takeWhile isAsciiDigit = [] :=
        congrArg String.data hr
      rw [hnil] at hne
      simp at hne
  · exact absurd h (by simp)

theorem searchSteamAppId_ne_empty : ∀ (cs : List Char) (r : String),
    searchSteamAppId cs = some r → r ≠ ""
  | [], r => by simp [searchSteamAppId]
  | c :: cs, r => by
    intro h
    simp only [searchSteamAppId] at h
    cases hm : matchSteamAppIdAt (c :: cs) with
    | some v =>
      rw [hm] at h
      exact (Option.some.inj h) ▸ matchSteamAppIdAt_ne_empty hm
    | none =>
      rw [hm] at h
      exact searchSteamAppId_ne_empty cs r h

theorem firstSome_mem : ∀ (l : List (Option String)) (s : String),
    firstSome l = some s → some s ∈ l
  | [], s => by simp [firstSome]
  | o :: rest, s => by
    cases o with
    | some v =>
      intro h
      simp only [firstSome] at h
      exact h ▸ List.mem_cons_self _ _
    | none =>
      intro h
      simp only [firstSome] at h
      exact List.mem_cons_of_mem _ (firstSome_mem rest s h)

theorem extractAppIdFromUrl_ne_empty {url : String} {r : String}
    (h : extractAppIdFromUrl url = some r) : r ≠ "" :=
  searchSteamAppId_ne_empty url.data r h

theorem extractSteamAppId_ne_empty (g : GamevaultGame) (sid : String)
    (h : extractSteamAppId g = some sid) : sid ≠ "" := by
  unfold extractSteamAppId at h
  split at h
  · exact absurd h (by simp)
  · have hmem := firstSome_mem _ _ h
    rw [List.mem_flatMap] at hmem
    obtain ⟨m, _, hmem2⟩ := hmem
    rw [List.mem_map] at hmem2
    obtain ⟨url, _, hurl⟩ := hmem2
    exact extractAppIdFromUrl_ne_empty hurl

/-- C1: for every local entry and reference catalog, if the identifier
extracted from the local entry is a key of the reference map, the
aggregator returns an exact match verdict, and its result does not
depend on the similarity scorer at all (no fuzzy name scan is
performed), even when some reference name would also score above the
fuzzy threshold.  The entry is assumed not to carry the sentinel tag
already, since the tag pre-check precedes both matching tiers. -/
theorem c1_exact_precedence (sim sim2 : String → String → ℚ)
    (sgs : List SteamGame) (g : GamevaultGame) (sid : String)
    (hTag : hasDuplicateTag g = false)
    (hExtract : extractSteamAppId g = some sid)
    (hHas : steamGameMapHas sgs sid = true) :
    matchGame sim sgs g = some (MatchResult.exact sid) ∧
    matchGame sim sgs g = matchGame sim2 sgs g := by
  have hne : sid ≠ "" := extractSteamAppId_ne_empty g sid hExtract
  constructor
  · simp [matchGame, hTag, hExtract, hHas, hne]
  · simp [matchGame, hTag, hExtract, hHas, hne]

/-- Witness for C1: an untagged local entry whose reference URL carries
app id 440, against a catalog keyed by 440 under a dissimilar name and
also containing an identically named game (which the fuzzy tier would
match): the verdict is exact and it is independent of the scorer. -/
theorem c1_exact_precedence_witness :
    hasDuplicateTag ⟨1, "Halo", none,
        some [⟨some ["https://store.steampowered.com/app/440/x"]⟩]⟩ = false ∧
      (matchGame stringSimilarity [⟨440, "Team Fortress 2"⟩, ⟨7, "Halo"⟩]
          ⟨1, "Halo", none,
            some [⟨some ["https://store.steampowered.com/app/440/x"]⟩]⟩ =
        some (MatchResult.exact "440") ∧
      matchGame stringSimilarity [⟨440, "Team Fortress 2"⟩, ⟨7, "Halo"⟩]
          ⟨1, "Halo", none,
            some [⟨some ["https://store.steampowered.com/app/440/x"]⟩]⟩ =
        matchGame (fun _ _ => 0) [⟨440, "Team Fortress 2"⟩, ⟨7, "Halo"⟩]
          ⟨1, "Halo", none,
            some [⟨some ["https://store.steampowered.com/app/440/x"]⟩]⟩) :=
  ⟨by decide,
    c1_exact_precedence stringSimilarity (fun _ _ => 0)
      [⟨440, "Team Fortress 2"⟩, ⟨7, "Halo"⟩]
      ⟨1, "Halo", none, some [⟨some ["https://store.steampowered.com/app/440/x"]⟩]⟩
      "440" (by decide) (by decide) (by decide)⟩

/-- The per-entry aggregator skips an already tagged entry. -/
theorem matchGame_none_of_tag (sim : String → String → ℚ)
    (sgs : List SteamGame) (g : GamevaultGame)
    (h : hasDuplicateTag g = true) : matchGame sim sgs g = none := by
  simp [matchGame, h]

/-- A written-back entry carries the sentinel tag. -/
theorem hasDuplicateTag_applyUpdateTo (g : GamevaultGame) :
    hasDuplicateTag (applyUpdateTo g) = true := by
  simp [hasDuplicateTag, applyUpdateTo, tagList, DUPLICATE_TAG]

/-- C2: the aggregator returns none for any entry already carrying the
sentinel tag (for every scorer and catalog, so the entry is never
re-scored), and a second reconciliation run on the snapshots produced by
the first run (catalog unchanged, every matched entry now tagged)
produces zero write requests. -/
theorem c2_idempotent (sim : String → String → ℚ)
    (gvs : List GamevaultGame) (sgs : List SteamGame) (g : GamevaultGame)
    (hTag : hasDuplicateTag g = true) :
    matchGame sim sgs g = none ∧
    tagUpdates sim (applyRun sim gvs sgs) sgs = [] := by
  constructor
  · exact matchGame_none_of_tag sim sgs g hTag
  · have key : ∀ g0 : GamevaultGame,
        (matchGame sim sgs
          (if (matchGame sim sgs g0).isSome && !(hasDuplicateTag g0) then applyUpdateTo g0
           else g0)).isSome = false := by
      intro g0
      by_cases hc : ((matchGame sim sgs g0).isSome && !(hasDuplicateTag g0)) = true
      · rw [if_pos hc,
          matchGame_none_of_tag sim sgs _ (hasDuplicateTag_applyUpdateTo g0)]
        rfl
      · rw [if_neg hc]
        by_cases ht : hasDuplicateTag g0 = true
        · rw [matchGame_none_of_tag sim sgs g0 ht]; rfl
        · simp only [Bool.and_eq_true, Bool.not_eq_true', not_and] at hc
          rw [Bool.not_eq_true] at ht
          cases hs : (matchGame sim sgs g0).isSome with
          | false => rfl
          | true => exact absurd ht (hc hs)
    have hdup : identifyDuplicateGames sim (applyRun sim gvs sgs) sgs = [] := by
      unfold identifyDuplicateGames applyRun
      rw [List.filter_eq_nil_iff]
      intro a ha
      rw [List.mem_map] at ha
      obtain ⟨g0, _, hg0⟩ := ha
      intro hx
      rw [← hg0, key g0] at hx
      exact Bool.false_ne_true hx
    simp [tagUpdates, hdup, tagGamesAsDuplicate]

/-- Witness for C2: a concrete tagged entry is skipped and a second run
over the written-back snapshot issues no writes. -/
theorem c2_idempotent_witness :
    hasDuplicateTag ⟨1, "Halo", some ⟨some [⟨"Duplicate: Steam"⟩]⟩, none⟩ = true ∧
      (matchGame stringSimilarity [⟨7, "Halo"⟩]
          ⟨1, "Halo", some ⟨some [⟨"Duplicate: Steam"⟩]⟩, none⟩ = none ∧
       tagUpdates stringSimilarity
          (applyRun stringSimilarity
            [⟨1, "Halo", some ⟨some [⟨"Duplicate: Steam"⟩]⟩, none⟩, ⟨2, "Halo", none, none⟩]
            [⟨7, "Halo"⟩])
          [⟨7, "Halo"⟩] = []) :=
  ⟨by decide,
    c2_idempotent stringSimilarity
      [⟨1, "Halo", some ⟨some [⟨"Duplicate: Steam"⟩]⟩, none⟩, ⟨2, "Halo", none, none⟩]
      [⟨7, "Halo"⟩]
      ⟨1, "Halo", some ⟨some [⟨"Duplicate: Steam"⟩]⟩, none⟩ (by decide)⟩

/-- The fuzzy loop finds a match exactly when some catalog entry scores
strictly above the threshold. -/
theorem firstTitleMatch_isSome_iff (sim : String → String → ℚ) (t : String) :
    ∀ sgs : List SteamGame,
      (firstTitleMatch sim t sgs).isSome = true ↔
        ∃ s ∈ sgs, (9 : ℚ) / 10 < sim (kebabCase t) (kebabCase s.name)
  | [] => by simp [firstTitleMatch]
  | s :: rest => by
    by_cases hc : (9 : ℚ) / 10 < sim (kebabCase t) (kebabCase s.name)
    · simp [firstTitleMatch, hc]
    · simp only [firstTitleMatch, if_neg hc, List.mem_cons]
      rw [firstTitleMatch_isSome_iff sim t rest]
      constructor
      · rintro ⟨x, hx, hlt⟩
        exact ⟨x, Or.inr hx, hlt⟩
      · rintro ⟨x, hx | hx, hlt⟩
        · exact absurd (hx ▸ hlt) hc
        · exact ⟨x, hx, hlt⟩

/-- C3: in the fuzzy tier a similarity score strictly greater than 9/10
is a match and any score less than or equal to 9/10 is not: the loop
finds a match exactly when some entry scores above the threshold, and
when every entry scores at most 9/10 (in particular exactly 9/10) the
loop returns none. -/
theorem c3_threshold_strict (sim : String → String → ℚ) (t : String)
    (sgs : List SteamGame) :
    ((firstTitleMatch sim t sgs).isSome = true ↔
      ∃ s ∈ sgs, (9 : ℚ) / 10 < sim (kebabCase t) (kebabCase s.name)) ∧
    ((∀ s ∈ sgs, sim (kebabCase t) (kebabCase s.name) ≤ 9 / 10) →
      firstTitleMatch sim t sgs = none) := by
  refine ⟨firstTitleMatch_isSome_iff sim t sgs, ?_⟩
  intro hle
  cases hm : firstTitleMatch sim t sgs with
  | none => rfl
  | some s =>
    have : (firstTitleMatch sim t sgs).isSome = true := by rw [hm]; rfl
    obtain ⟨x, hx, hlt⟩ := (firstTitleMatch_isSome_iff sim t sgs).mp this
    exact absurd hlt (not_lt.mpr (hle x hx))

/-- Witness for C3: a concrete pair of names scoring exactly 9/10 under
the kebab-cased Dice metric is rejected by the fuzzy loop. -/
theorem c3_threshold_strict_witness :
    stringSimilarity (kebabCase "abcdefghijk") (kebabCase "abcdefghijx") = 9 / 10 ∧
      firstTitleMatch stringSimilarity "abcdefghijk" [⟨1, "abcdefghijx"⟩] = none := by
  have hk1 : kebabCase "abcdefghijk" = "abcdefghijk" := by decide
  have hk2 : kebabCase "abcdefghijx" = "abcdefghijx" := by decide
  have hval : stringSimilarity (kebabCase "abcdefghijk") (kebabCase "abcdefghijx") = 9 / 10 := by
    rw [hk1, hk2,
      stringSimilarity_eval "abcdefghijk" "abcdefghijx" 9 11 11
        (by decide) (by decide) (by decide) (by decide) (by decide)]
    norm_num
  refine ⟨hval, ?_⟩
  exact (c3_threshold_strict stringSimilarity "abcdefghijk" [⟨1, "abcdefghijx"⟩]).2
    (by
      intro s hs
      rw [List.mem_singleton] at hs
      subst hs
      exact le_of_eq hval)

/-- A falsy vault title makes the guard of the title loop false for
every item and every scorer. -/
theorem matchByTitleCond_false_of_falsy (sim : String → String → ℚ)
    (title : Option String) (i : SteamItem)
    (h : truthyOptStr title = false) : matchByTitleCond sim title i = false := by
  cases title with
  | none => cases i <;> simp [matchByTitleCond, itemName]
  | some t =>
    have ht : (t != "") = false := by simpa [truthyOptStr] using h
    cases i <;> simp [matchByTitleCond, itemName, ht]

/-- The title loop returns none when the guard is everywhere false. -/
theorem matchByTitle_none (sim : String → String → ℚ) (title : Option String)
    (h : ∀ i, matchByTitleCond sim title i = false) :
    ∀ items : List SteamItem, matchByTitle sim title items = none
  | [] => rfl
  | i :: rest => by
    simp only [matchByTitle, h i, matchByTitle_none sim title h rest]
    rfl

/-- C6: the fuzzy scan walks the catalog in its given order and returns
the first item passing the similarity guard (first match wins, not best
match), and when the local title is empty or missing no name comparison
happens at all: the result is none and does not depend on the scorer. -/
theorem c6_first_match_wins (sim sim2 : String → String → ℚ)
    (title title2 : Option String) (items pre rest : List SteamItem) (s : SteamItem)
    (hpre : ∀ i ∈ pre, matchByTitleCond sim title i = false)
    (hs : matchByTitleCond sim title s = true)
    (hfalsy : truthyOptStr title2 = false) :
    matchByTitle sim title (pre ++ s :: rest) = some s ∧
    matchByTitle sim title2 items = none ∧
    matchByTitle sim title2 items = matchByTitle sim2 title2 items := by
  refine ⟨?_, ?_, ?_⟩
  · induction pre with
    | nil => simp [matchByTitle, hs]
    | cons i is ih =>
      simp only [List.cons_append, matchByTitle, hpre i (List.mem_cons_self i is)]
      exact ih fun j hj => hpre j (List.mem_cons_of_mem i hj)
  · exact matchByTitle_none sim title2
      (fun i => matchByTitleCond_false_of_falsy sim title2 i hfalsy) items
  · rw [matchByTitle_none sim title2
        (fun i => matchByTitleCond_false_of_falsy sim title2 i hfalsy) items,
      matchByTitle_none sim2 title2
        (fun i => matchByTitleCond_false_of_falsy sim2 title2 i hfalsy) items]

/-- Witness for C6: the scan skips a nameless wishlist item and a
dissimilar game, stops at the first sufficiently similar name even
though a later identical name would score higher, and an entry with an
empty title matches nothing under any scorer. -/
theorem c6_first_match_wins_witness :
    (∀ i ∈ ([SteamItem.wishlist 3, SteamItem.game ⟨2, "Chess"⟩] : List SteamItem),
        matchByTitleCond stringSimilarity (some "Halo: Combat Evolved") i = false) ∧
      matchByTitleCond stringSimilarity (some "Halo: Combat Evolved")
        (SteamItem.game ⟨5, "Halo - Combat Evolved"⟩) = true ∧
      truthyOptStr (some "") = false ∧
      (matchByTitle stringSimilarity (some "Halo: Combat Evolved")
          ([SteamItem.wishlist 3, SteamItem.game ⟨2, "Chess"⟩] ++
            SteamItem.game ⟨5, "Halo - Combat Evolved"⟩ ::
              [SteamItem.game ⟨6, "Halo: Combat Evolved"⟩]) =
        some (SteamItem.game ⟨5, "Halo - Combat Evolved"⟩) ∧
      matchByTitle stringSimilarity (some "")
          [SteamItem.game ⟨6, "Halo: Combat Evolved"⟩] = none ∧
      matchByTitle stringSimilarity (some "")
          [SteamItem.game ⟨6, "Halo: Combat Evolved"⟩] =
        matchByTitle (fun _ _ => 1) (some "")
          [SteamItem.game ⟨6, "Halo: Combat Evolved"⟩]) := by
  have hs0 : stringSimilarity (kebabCase "Halo: Combat Evolved") (kebabCase "Chess") = 0 := by
    rw [show kebabCase "Halo: Combat Evolved" = "halo-combat-evolved" from by decide,
      show kebabCase "Chess" = "chess" from by decide,
      stringSimilarity_eval "halo-combat-evolved" "chess" 0 19 5
        (by decide) (by decide) (by decide) (by decide) (by decide)]
    norm_num
  have hs1 : stringSimilarity (kebabCase "Halo: Combat Evolved")
      (kebabCase "Halo - Combat Evolved") = 1 := by
    rw [show kebabCase "Halo: Combat Evolved" = "halo-combat-evolved" from by decide,
      show kebabCase "Halo - Combat Evolved" = "halo-combat-evolved" from by decide,
      stringSimilarity_eval "halo-combat-evolved" "halo-combat-evolved" 18 19 19
        (by decide) (by decide) (by decide) (by decide) (by decide)]
    norm_num
  have hchess : matchByTitleCond stringSimilarity (some "Halo: Combat Evolved")
      (SteamItem.game ⟨2, "Chess"⟩) = false := by
    show (("Halo: Combat Evolved" != "") &&
      decide ((9 : ℚ) / 10 <
        stringSimilarity (kebabCase "Halo: Combat Evolved") (kebabCase "Chess"))) = false
    rw [hs0, decide_eq_false (by norm_num : ¬ ((9 : ℚ) / 10 < 0))]
    decide
  have hhit : matchByTitleCond stringSimilarity (some "Halo: Combat Evolved")
      (SteamItem.game ⟨5, "Halo - Combat Evolved"⟩) = true := by
    show (("Halo: Combat Evolved" != "") &&
      decide ((9 : ℚ) / 10 <
        stringSimilarity (kebabCase "Halo: Combat Evolved")
          (kebabCase "Halo - Combat Evolved"))) = true
    rw [hs1, decide_eq_true (by norm_num : (9 : ℚ) / 10 < 1)]
    decide
  have hpre : ∀ i ∈ ([SteamItem.wishlist 3, SteamItem.game ⟨2, "Chess"⟩] : List SteamItem),
      matchByTitleCond stringSimilarity (some "Halo: Combat Evolved") i = false := by
    intro i hi
    rw [List.mem_cons, List.mem_singleton] at hi
    rcases hi with rfl | rfl
    · rfl
    · exact hchess
  exact ⟨hpre, hhit, by decide,
    c6_first_match_wins stringSimilarity (fun _ _ => 1)
      (some "Halo: Combat Evolved") (some "")
      [SteamItem.game ⟨6, "Halo: Combat Evolved"⟩]
      [SteamItem.wishlist 3, SteamItem.game ⟨2, "Chess"⟩]
      [SteamItem.game ⟨6, "Halo: Combat Evolved"⟩]
      (SteamItem.game ⟨5, "Halo - Combat Evolved"⟩)
      hpre hhit (by decide)⟩

/-- The flattened ordered list of reference URLs of a local entry. -/
def allUrls (g : GamevaultGame) : List String :=
  (g.provider_metadata.getD []).flatMap (fun m => m.url_websites.getD [])

/-- The extractor equals the first defined capture over the flattened
URL list. -/
theorem extractSteamAppId_eq (g : GamevaultGame) :
    extractSteamAppId g = firstSome ((allUrls g).map extractAppIdFromUrl) := by
  cases hp : g.provider_metadata with
  | none => simp [extractSteamAppId, allUrls, hp, firstSome]
  | some pms =>
    simp only [extractSteamAppId, allUrls, hp, Option.getD_some]
    rw [List.map_flatMap]

theorem firstSome_eq_none_iff : ∀ l : List (Option String),
    firstSome l = none ↔ ∀ o ∈ l, o = none
  | [] => by simp [firstSome]
  | o :: rest => by
    cases o with
    | some v => simp [firstSome]
    | none => simp [firstSome, firstSome_eq_none_iff rest]

theorem firstSome_append_of_none (pre : List (Option String))
    (h : ∀ o ∈ pre, o = none) (l : List (Option String)) :
    firstSome (pre ++ l) = firstSome l := by
  induction pre with
  | nil => rfl
  | cons o os ih =>
    rw [List.cons_append,
      show o = none from h o (List.mem_cons_self o os)]
    exact ih fun x hx => h x (List.mem_cons_of_mem o hx)

/-- C7: the extractor scans the ordered reference URL list and returns
the capture of the first URL matching the item-page pattern; it returns
none exactly when no URL matches (stated for every entry, with no
assumption that a match exists), and non-matching URLs before the first
match are skipped without failing (the extractor is a total function). -/
theorem c7_extractor_first_match (g : GamevaultGame) (pre rest : List String)
    (u i : String) :
    (extractSteamAppId g = none ↔ ∀ url ∈ allUrls g, extractAppIdFromUrl url = none) ∧
    (allUrls g = pre ++ u :: rest →
      (∀ v ∈ pre, extractAppIdFromUrl v = none) →
      extractAppIdFromUrl u = some i →
      extractSteamAppId g = some i) := by
  constructor
  · rw [extractSteamAppId_eq, firstSome_eq_none_iff]
    constructor
    · intro h url hurl
      exact h _ (List.mem_map_of_mem _ hurl)
    · intro h o ho
      rw [List.mem_map] at ho
      obtain ⟨url, hurl, rfl⟩ := ho
      exact h url hurl
  · intro hsplit hpre hu
    rw [extractSteamAppId_eq, hsplit, List.map_append, List.map_cons,
      firstSome_append_of_none _
        (by
          intro o ho
          rw [List.mem_map] at ho
          obtain ⟨v, hv, rfl⟩ := ho
          exact hpre v hv),
      hu]
    rfl

/-- Witness for C7: an entry whose first URL does not match and whose
second metadata record has no URL list yields the capture of the
matching URL, and an entry with only non-matching URLs yields none. -/
theorem c7_extractor_first_match_witness :
    allUrls ⟨1, "Team Fortress 2", none,
        some [⟨some ["https://example.com/x",
          "https://store.steampowered.com/app/440/Team_Fortress_2/"]⟩, ⟨none⟩]⟩ =
      ["https://example.com/x"] ++
        "https://store.steampowered.com/app/440/Team_Fortress_2/" :: [] ∧
      extractAppIdFromUrl "https://example.com/x" = none ∧
      extractAppIdFromUrl "https://store.steampowered.com/app/440/Team_Fortress_2/" =
        some "440" ∧
      extractSteamAppId ⟨1, "Team Fortress 2", none,
        some [⟨some ["https://example.com/x",
          "https://store.steampowered.com/app/440/Team_Fortress_2/"]⟩, ⟨none⟩]⟩ =
        some "440" ∧
      extractSteamAppId ⟨2, "Chess", none,
        some [⟨some ["https://example.com/x"]⟩]⟩ = none :=
  ⟨by decide, by decide, by decide,
    (c7_extractor_first_match
      ⟨1, "Team Fortress 2", none,
        some [⟨some ["https://example.com/x",
          "https://store.steampowered.com/app/440/Team_Fortress_2/"]⟩, ⟨none⟩]⟩
      ["https://example.com/x"] []
      "https://store.steampowered.com/app/440/Team_Fortress_2/" "440").2
      (by decide)
      (by
        intro v hv
        rw [List.mem_singleton] at hv
        subst hv
        decide)
      (by decide),
    (c7_extractor_first_match
      ⟨2, "Chess", none, some [⟨some ["https://example.com/x"]⟩]⟩
      [] [] "" "").1.mpr (by decide)⟩

/-- An entry is free of the sentinel tag exactly when the tag check is
false. -/
theorem hasDuplicateTag_false_iff (g : GamevaultGame) :
    hasDuplicateTag g = false ↔ DUPLICATE_TAG ∉ tagNames g := by
  rw [hasDuplicateTag, tagNames]
  rw [Bool.eq_false_iff, ne_eq, List.any_eq_true]
  constructor
  · intro h hmem
    rw [List.mem_map] at hmem
    obtain ⟨t, ht, hname⟩ := hmem
    exact h ⟨t, ht, by rw [hname]; exact beq_self_eq_true _⟩
  · rintro h ⟨t, ht, hbeq⟩
    rw [beq_iff_eq] at hbeq
    exact h (hbeq ▸ List.mem_map_of_mem (fun t => t.name) ht)

/-- An untagged entry has no occurrence of the sentinel tag among its
tag names. -/
theorem count_duplicateTag_eq_zero (g : GamevaultGame)
    (h : hasDuplicateTag g = false) :
    (tagNames g).count DUPLICATE_TAG = 0 :=
  List.count_eq_zero.mpr ((hasDuplicateTag_false_iff g).mp h)

/-- The tag names of a written-back entry are the previous names with
the sentinel tag appended. -/
theorem tagNames_applyUpdateTo (g : GamevaultGame) :
    tagNames (applyUpdateTo g) = tagNames g ++ [DUPLICATE_TAG] := by
  simp [tagNames, applyUpdateTo, tagList, List.map_map, Function.comp]

/-- C4: the reconciler emits at most one write request per distinct
entry (snapshot ids stay duplicate-free across the emitted batch), emits
none for an entry already carrying the sentinel tag (all emitted
requests come from untagged matched entries), every request contains the
sentinel tag exactly once while keeping every pre-existing tag name, and
the written-back snapshot therefore keeps the sentinel tag count of
every entry at most one. -/
theorem c4_reconciler_invariants (sim : String → String → ℚ)
    (gvs : List GamevaultGame) (sgs : List SteamGame) :
    (∀ u ∈ tagUpdates sim gvs sgs,
      u.user_metadata.tags.count DUPLICATE_TAG = 1 ∧
      ∃ g ∈ gvs, g.id = u.id ∧ hasDuplicateTag g = false ∧
        ∀ t ∈ tagNames g, t ∈ u.user_metadata.tags) ∧
    ((gvs.map (fun g => g.id)).Nodup →
      ((tagUpdates sim gvs sgs).map (fun u => u.id)).Nodup) ∧
    ((∀ g ∈ gvs, (tagNames g).count DUPLICATE_TAG ≤ 1) →
      ∀ g2 ∈ applyRun sim gvs sgs, (tagNames g2).count DUPLICATE_TAG ≤ 1) := by
  refine ⟨?_, ?_, ?_⟩
  · intro u hu
    rw [tagUpdates, tagGamesAsDuplicate, List.mem_map] at hu
    obtain ⟨g, hgfil, rfl⟩ := hu
    rw [List.mem_filter] at hgfil
    obtain ⟨hgdup, hgtag⟩ := hgfil
    rw [Bool.not_eq_true'] at hgtag
    rw [identifyDuplicateGames, List.mem_filter] at hgdup
    refine ⟨?_, g, hgdup.1, rfl, hgtag, ?_⟩
    · show (tagNames g ++ [DUPLICATE_TAG]).count DUPLICATE_TAG = 1
      rw [List.count_append, count_duplicateTag_eq_zero g hgtag]
      simp
    · intro t ht
      exact List.mem_append_left _ ht
  · intro hnd
    have h1 : ((tagUpdates sim gvs sgs).map (fun u => u.id)) =
        (((identifyDuplicateGames sim gvs sgs).filter
          (fun g => !(hasDuplicateTag g))).map (fun g => g.id)) := by
      rw [tagUpdates, tagGamesAsDuplicate, List.map_map]
      rfl
    rw [h1]
    have hsub : List.Sublist
        ((identifyDuplicateGames sim gvs sgs).filter (fun g => !(hasDuplicateTag g)))
        gvs :=
      (List.filter_sublist _).trans (List.filter_sublist _)
    exact List.Nodup.sublist (hsub.map (fun g => g.id)) hnd
  · intro h g2 hg2
    rw [applyRun, List.mem_map] at hg2
    obtain ⟨g, hggvs, rfl⟩ := hg2
    by_cases hc : ((matchGame sim sgs g).isSome && !(hasDuplicateTag g)) = true
    · have htag : hasDuplicateTag g = false := by
        rw [Bool.and_eq_true] at hc
        have h2 := hc.2
        rwa [Bool.not_eq_true'] at h2
      rw [if_pos hc, tagNames_applyUpdateTo, List.count_append,
        count_duplicateTag_eq_zero g htag]
      simp
    · rw [if_neg hc]
      exact h g hggvs

/-- Witness for C4: a concrete snapshot of two entries, one already
tagged, with duplicate-free ids and sentinel counts at most one: the
emitted batch keeps ids duplicate-free and the written-back snapshot
keeps every sentinel count at most one. -/
theorem c4_reconciler_invariants_witness :
    ([(⟨1, "Halo", some ⟨some [⟨"Action"⟩]⟩, none⟩ : GamevaultGame),
        ⟨2, "Halo", some ⟨some [⟨"Duplicate: Steam"⟩]⟩, none⟩].map
          (fun g => g.id)).Nodup ∧
      (∀ g ∈ [(⟨1, "Halo", some ⟨some [⟨"Action"⟩]⟩, none⟩ : GamevaultGame),
          ⟨2, "Halo", some ⟨some [⟨"Duplicate: Steam"⟩]⟩, none⟩],
        (tagNames g).count DUPLICATE_TAG ≤ 1) ∧
      ((tagUpdates (fun _ _ => 1)
        [⟨1, "Halo", some ⟨some [⟨"Action"⟩]⟩, none⟩,
          ⟨2, "Halo", some ⟨some [⟨"Duplicate: Steam"⟩]⟩, none⟩]
        [⟨7, "Halo"⟩]).map (fun u => u.id)).Nodup ∧
      (∀ g2 ∈ applyRun (fun _ _ => 1)
          [⟨1, "Halo", some ⟨some [⟨"Action"⟩]⟩, none⟩,
            ⟨2, "Halo", some ⟨some [⟨"Duplicate: Steam"⟩]⟩, none⟩]
          [⟨7, "Halo"⟩],
        (tagNames g2).count DUPLICATE_TAG ≤ 1) :=
  ⟨by decide, by decide,
    (c4_reconciler_invariants (fun _ _ => 1)
      [⟨1, "Halo", some ⟨some [⟨"Action"⟩]⟩, none⟩,
        ⟨2, "Halo", some ⟨some [⟨"Duplicate: Steam"⟩]⟩, none⟩]
      [⟨7, "Halo"⟩]).2.1 (by decide),
    (c4_reconciler_invariants (fun _ _ => 1)
      [⟨1, "Halo", some ⟨some [⟨"Action"⟩]⟩, none⟩,
        ⟨2, "Halo", some ⟨some [⟨"Duplicate: Steam"⟩]⟩, none⟩]
      [⟨7, "Halo"⟩]).2.2 (by decide)⟩

/-- C5: when credentials are missing the fetch fails before the
transport is consulted (its outcome is independent of the response), a
non-success transport response also fails the fetch, and a failed
snapshot acquisition on either side makes the whole run produce no write
requests. -/
theorem c5_failed_run_no_writes (sim : String → String → ℚ) (c : Config)
    (resp resp2 : SteamResponse) (store : Except String (List GamevaultGame)) :
    ((truthyOptStr c.STEAM_API_KEY = false ∨ truthyOptStr c.STEAM_USER_ID = false) →
      (∃ e, fetchSteamGames c resp = Except.error e) ∧
      fetchSteamGames c resp = fetchSteamGames c resp2) ∧
    (resp.ok = false → ∃ e, fetchSteamGames c resp = Except.error e) ∧
    ((∃ e, fetchSteamGames c resp = Except.error e) ∨ (∃ e, store = Except.error e) →
      findDuplicatesRun sim c resp store = []) := by
  refine ⟨?_, ?_, ?_⟩
  · intro h
    by_cases hk : truthyOptStr c.STEAM_API_KEY = true
    · have hu : truthyOptStr c.STEAM_USER_ID = false := by
        rcases h with hk2 | hu
        · rw [hk] at hk2; exact absurd hk2 (by simp)
        · exact hu
      exact ⟨⟨"Steam User ID not configured.",
          by simp [fetchSteamGames, validateSteamConfig, hk, hu]⟩,
        by simp [fetchSteamGames, validateSteamConfig, hk, hu]⟩
    · rw [Bool.not_eq_true] at hk
      exact ⟨⟨"Steam API key not configured.",
          by simp [fetchSteamGames, validateSteamConfig, hk]⟩,
        by simp [fetchSteamGames, validateSteamConfig, hk]⟩
  · intro h
    cases hv : validateSteamConfig c with
    | error e => exact ⟨e, by simp [fetchSteamGames, hv]⟩
    | ok _ => exact ⟨"Steam API fetch failed", by simp [fetchSteamGames, hv, h]⟩
  · rintro (⟨e, he⟩ | ⟨e, he⟩)
    · simp [findDuplicatesRun, he]
    · rw [he]
      cases fetchSteamGames c resp <;> simp [findDuplicatesRun]

/-- Witness for C5: a configuration with an empty user id fails the run
regardless of the transport response and yields no writes. -/
theorem c5_failed_run_no_writes_witness :
    truthyOptStr (Config.mk (some "") (some "key") (some 1440)).STEAM_USER_ID = false ∧
      fetchSteamGames ⟨some "", some "key", some 1440⟩ ⟨true, 200, [⟨440, "TF2"⟩]⟩ =
        fetchSteamGames ⟨some "", some "key", some 1440⟩ ⟨false, 500, []⟩ ∧
      findDuplicatesRun stringSimilarity ⟨some "", some "key", some 1440⟩
        ⟨true, 200, [⟨440, "TF2"⟩]⟩ (Except.ok [⟨1, "Halo", none, none⟩]) = [] :=
  ⟨by decide,
    ((c5_failed_run_no_writes stringSimilarity ⟨some "", some "key", some 1440⟩
      ⟨true, 200, [⟨440, "TF2"⟩]⟩ ⟨false, 500, []⟩
      (Except.ok [⟨1, "Halo", none, none⟩])).1 (Or.inr (by decide))).2,
    (c5_failed_run_no_writes stringSimilarity ⟨some "", some "key", some 1440⟩
      ⟨true, 200, [⟨440, "TF2"⟩]⟩ ⟨false, 500, []⟩
      (Except.ok [⟨1, "Halo", none, none⟩])).2.2
      (Or.inl ((c5_failed_run_no_writes stringSimilarity ⟨some "", some "key", some 1440⟩
        ⟨true, 200, [⟨440, "TF2"⟩]⟩ ⟨false, 500, []⟩
        (Except.ok [⟨1, "Halo", none, none⟩])).1 (Or.inr (by decide))).1)⟩

/-- C9: a missing or non-numeric interval environment value (NaN after
coercion) and any negative value fall back to the documented default of
1440 minutes, the value 0 is kept and disables the scheduled runs, and a
positive value within the safe range keeps the schedule enabled. -/
theorem c9_interval_fallback (uid key : Option String) (q : ℚ) :
    (mkConfiguration uid key none).INTERVAL = some 1440 ∧
    (q < 0 → (mkConfiguration uid key (some q)).INTERVAL = some 1440) ∧
    (mkConfiguration uid key (some 0)).INTERVAL = some 0 ∧
    cronDisabled (mkConfiguration uid key (some 0)) = true ∧
    (0 < q → q ≤ maxSafeInteger →
      cronDisabled (mkConfiguration uid key (some q)) = false) := by
  refine ⟨?_, ?_, ?_, ?_, ?_⟩
  · show parseNumber none (some (24 * 60)) = some 1440
    norm_num [parseNumber]
  · intro hq
    show parseNumber (some q) (some (24 * 60)) = some 1440
    rw [parseNumber, if_pos (Or.inl hq)]
    norm_num
  · show parseNumber (some 0) (some (24 * 60)) = some 0
    rw [parseNumber, if_neg (by norm_num [maxSafeInteger])]
  · show cronDisabled ⟨uid, key, parseNumber (some 0) (some (24 * 60))⟩ = true
    rw [parseNumber, if_neg (by norm_num [maxSafeInteger])]
    show decide ((0 : ℚ) ≤ 0) = true
    rw [decide_eq_true (le_refl (0 : ℚ))]
  · intro h1 h2
    show cronDisabled ⟨uid, key, parseNumber (some q) (some (24 * 60))⟩ = false
    rw [parseNumber, if_neg (by push_neg; exact ⟨le_of_lt h1, h2⟩)]
    show decide (q ≤ 0) = false
    rw [decide_eq_false (not_le.mpr h1)]

/-- Witness for C9: a negative interval falls back to 1440, a positive
one keeps the schedule enabled, and 0 disables it. -/
theorem c9_interval_fallback_witness :
    (mkConfiguration none (some "k") (some (-5))).INTERVAL = some 1440 ∧
      cronDisabled (mkConfiguration none (some "k") (some 5)) = false ∧
      cronDisabled (mkConfiguration none (some "k") (some 0)) = true :=
  ⟨(c9_interval_fallback none (some "k") (-5)).2.1 (by norm_num),
    (c9_interval_fallback none (some "k") 5).2.2.2.2 (by norm_num)
      (by norm_num [maxSafeInteger]),
    (c9_interval_fallback none (some "k") 0).2.2.2.1⟩

/-- C10: the censored configuration view holds either the literal
redaction marker or null in its API key field (never the configured key
value), a set (truthy) key maps to the marker and an absent or empty one
to null, and two configurations differing only in their (set) API key
values censor to identical views. -/
theorem c10_censored_config (c c2 : Config) (k : String) :
    ((getCensoredConfiguration c).STEAM_API_KEY = some "**REDACTED**" ∨
      (getCensoredConfiguration c).STEAM_API_KEY = none) ∧
    (c.STEAM_API_KEY = some k → k ≠ "" →
      (getCensoredConfiguration c).STEAM_API_KEY = some "**REDACTED**") ∧
    ((c.STEAM_API_KEY = none ∨ c.STEAM_API_KEY = some "") →
      (getCensoredConfiguration c).STEAM_API_KEY = none) ∧
    (c.STEAM_USER_ID = c2.STEAM_USER_ID → c.INTERVAL = c2.INTERVAL →
      truthyOptStr c.STEAM_API_KEY = true → truthyOptStr c2.STEAM_API_KEY = true →
      getCensoredConfiguration c = getCensoredConfiguration c2) := by
  refine ⟨?_, ?_, ?_, ?_⟩
  · by_cases h : truthyOptStr c.STEAM_API_KEY = true
    · exact Or.inl (by simp [getCensoredConfiguration, h])
    · rw [Bool.not_eq_true] at h
      exact Or.inr (by simp [getCensoredConfiguration, h])
  · intro hk hne
    have ht : truthyOptStr c.STEAM_API_KEY = true := by
      rw [hk]
      show (k != "") = true
      exact bne_iff_ne.mpr hne
    simp [getCensoredConfiguration, ht]
  · intro h
    have ht : truthyOptStr c.STEAM_API_KEY = false := by
      rcases h with h | h <;> rw [h] <;> rfl
    simp [getCensoredConfiguration, ht]
  · intro h1 h2 h3 h4
    simp [getCensoredConfiguration, h1, h2, h3, h4]

/-- Witness for C10: two configurations with different non-empty keys
censor to the same view, with the key field holding the marker. -/
theorem c10_censored_config_witness :
    (Config.mk (some "u") (some "secretA") (some 1440)).STEAM_API_KEY = some "secretA" ∧
      ("secretA" : String) ≠ "" ∧
      (getCensoredConfiguration ⟨some "u", some "secretA", some 1440⟩).STEAM_API_KEY =
        some "**REDACTED**" ∧
      getCensoredConfiguration ⟨some "u", some "secretA", some 1440⟩ =
        getCensoredConfiguration ⟨some "u", some "otherB", some 1440⟩ :=
  ⟨rfl, by decide,
    (c10_censored_config ⟨some "u", some "secretA", some 1440⟩
      ⟨some "u", some "otherB", some 1440⟩ "secretA").2.1 rfl (by decide),
    (c10_censored_config ⟨some "u", some "secretA", some 1440⟩
      ⟨some "u", some "otherB", some 1440⟩ "secretA").2.2.2 rfl rfl
      (by decide) (by decide)⟩

end SteamDupeFinder
